import Mathlib

/-!
Verification development for the nuChain-Z Cysic hardware miner
(src/oracle/cysic-hardware-miner.py), a shallow embedding of its data
model and operations in Lean 4, together with theorems settling the
specified properties of the orchestration core.
-/

namespace CysicMiner

/-- Mirrors the Python dataclass MiningRig. -/
structure MiningRig where
  rig_id : Nat
  owner : String
  components : List Nat
  hash_power : Nat
  watt_consumption : Nat
  nuchain_address : String
  is_active : Bool
deriving DecidableEq, Repr

/-- Mirrors the Python dataclass CysicProof; byte strings are lists of
byte values. -/
structure CysicProof where
  proof_bytes : List Nat
  public_inputs : List Nat
  verification_key : List Nat
  hardware_id : String
  generation_time_ms : Nat
deriving DecidableEq, Repr

/-! SHA-256, as used by prepare_public_inputs via hashlib.sha256.
32-bit machine words are Nat values reduced modulo 2^32. -/

/-- Reduce a Nat to a 32-bit word. -/
def w32 (n : Nat) : Nat := n % 4294967296

/-- Right rotation of a 32-bit word. -/
def rotr (n x : Nat) : Nat :=
  w32 (Nat.lor (Nat.shiftRight x n) (Nat.shiftLeft x (32 - n)))

/-- Bitwise xor of three words. -/
def xor3 (a b c : Nat) : Nat := Nat.xor (Nat.xor a b) c

/-- SHA-256 small sigma 0. -/
def ssig0 (x : Nat) : Nat := xor3 (rotr 7 x) (rotr 18 x) (Nat.shiftRight x 3)

/-- SHA-256 small sigma 1. -/
def ssig1 (x : Nat) : Nat := xor3 (rotr 17 x) (rotr 19 x) (Nat.shiftRight x 10)

/-- SHA-256 big sigma 0. -/
def bsig0 (x : Nat) : Nat := xor3 (rotr 2 x) (rotr 13 x) (rotr 22 x)

/-- SHA-256 big sigma 1. -/
def bsig1 (x : Nat) : Nat := xor3 (rotr 6 x) (rotr 11 x) (rotr 25 x)

/-- SHA-256 choice function. -/
def chf (x y z : Nat) : Nat :=
  Nat.xor (Nat.land x y) (Nat.land (Nat.xor x 4294967295) z)

/-- SHA-256 majority function. -/
def majf (x y z : Nat) : Nat :=
  xor3 (Nat.land x y) (Nat.land x z) (Nat.land y z)

/-- SHA-256 round constants. -/
def sha256K : List Nat :=
  [1116352408, 1899447441, 3049323471, 3921009573, 961987163,
   1508970993, 2453635748, 2870763221, 3624381080, 310598401,
   607225278, 1426881987, 1925078388, 2162078206, 2614888103,
   3248222580, 3835390401, 4022224774, 264347078, 604807628,
   770255983, 1249150122, 1555081692, 1996064986, 2554220882,
   2821834349, 2952996808, 3210313671, 3336571891, 3584528711,
   113926993, 338241895, 666307205, 773529912, 1294757372,
   1396182291, 1695183700, 1986661051, 2177026350, 2456956037,
   2730485921, 2820302411, 3259730800, 3345764771, 3516065817,
   3600352804, 4094571909, 275423344, 430227734, 506948616,
   659060556, 883997877, 958139571, 1322822218, 1537002063,
   1747873779, 1955562222, 2024104815, 2227730452, 2361852424,
   2428436474, 2756734187, 3204031479, 3329325298]

/-- SHA-256 initial hash state. -/
def sha256H0 : List Nat :=
  [1779033703, 3144134277, 1013904242,
   2773480762, 1359893119, 2600822924,
   528734635, 1541459225]

/-- Pad a byte message per SHA-256: append 0x80, zero bytes to 56 mod 64,
then the bit length as 8 big-endian bytes. -/
def sha256Pad (msg : List Nat) : List Nat :=
  let len := msg.length
  let zeros := (64 - ((len + 9) % 64)) % 64
  let bitLen := len * 8
  msg ++ [0x80] ++ List.replicate zeros 0 ++
    [w32 (bitLen / 2 ^ 56) % 256, (bitLen / 2 ^ 48) % 256,
     (bitLen / 2 ^ 40) % 256, (bitLen / 2 ^ 32) % 256,
     (bitLen / 2 ^ 24) % 256, (bitLen / 2 ^ 16) % 256,
     (bitLen / 2 ^ 8) % 256, bitLen % 256]

/-- Split a list into chunks of the given positive size. -/
def chunks (n : Nat) : List Nat → List (List Nat)
  | [] => []
  | x :: xs =>
    let rest := chunks n (List.drop (n - 1) xs)
    (x :: List.take (n - 1) xs) :: rest
termination_by l => l.length
decreasing_by
  have := List.length_drop (n - 1) xs
  simp only [List.length_cons]
  omega

/-- Assemble four big-endian bytes into a 32-bit word. -/
def word32OfBytes : List Nat → Nat
  | [a, b, c, d] => a * 2 ^ 24 + b * 2 ^ 16 + c * 2 ^ 8 + d
  | _ => 0

/-- Message schedule: extend the 16 block words to 64. -/
def sha256Schedule (ws : List Nat) (i : Nat) : List Nat :=
  match i with
  | 0 => ws
  | j + 1 =>
    let ws := sha256Schedule ws j
    let t := 16 + j
    let v := w32 (ssig1 (ws.getD (t - 2) 0) + ws.getD (t - 7) 0 +
                  ssig0 (ws.getD (t - 15) 0) + ws.getD (t - 16) 0)
    ws ++ [v]

/-- One round of the SHA-256 compression function on the eight-word
working state. -/
def sha256Round (k w : Nat) : List Nat → List Nat
  | [a, b, c, d, e, f, g, h] =>
    let t1 := w32 (h + bsig1 e + chf e f g + k + w)
    let t2 := w32 (bsig0 a + majf a b c)
    [w32 (t1 + t2), a, b, c, w32 (d + t1), e, f, g]
  | st => st

/-- Process one 64-byte block, updating the eight-word hash state. -/
def sha256Block (hs : List Nat) (block : List Nat) : List Nat :=
  let ws := sha256Schedule ((chunks 4 block).map word32OfBytes) 48
  let final := (List.range 64).foldl
    (fun st i => sha256Round (sha256K.getD i 0) (ws.getD i 0) st) hs
  (hs.zip final).map (fun p => w32 (p.1 + p.2))

/-- Serialize the eight-word state to 32 big-endian bytes. -/
def sha256Out (hs : List Nat) : List Nat :=
  hs.flatMap (fun h => [h / 2 ^ 24 % 256, h / 2 ^ 16 % 256, h / 2 ^ 8 % 256, h % 256])

/-- SHA-256 digest of a byte message. -/
def sha256 (msg : List Nat) : List Nat :=
  sha256Out ((chunks 64 (sha256Pad msg)).foldl sha256Block sha256H0)

/-- UTF-8 bytes of a string, as Nat values. -/
def strBytes (s : String) : List Nat := s.toUTF8.toList.map (fun b => b.toNat)

/-! Public inputs, prepare_public_inputs (source lines 285-301). The
data dict is serialized by json.dumps(data, sort_keys=True) — keys in
alphabetical order, Python's default ", " and ": " separators — then
hashed with hashlib.sha256. The wall-clock int(time.time()) read is
the timestamp parameter. -/

/-- Python json.dumps rendering of a list of ints. -/
def jsonIntList (xs : List Nat) : String :=
  "[" ++ String.intercalate ", " (xs.map toString) ++ "]"

/-- The json.dumps(data, sort_keys=True) string of the public-input
dict; its keys sort as block_height, components, hardware_id,
hash_power, owner, rig_id, timestamp, watt_consumption. -/
def prepare_public_inputs_serialized (hw : String) (rig : MiningRig)
    (block_height timestamp : Nat) : String :=
  "\x7b\"block_height\": " ++ toString block_height ++
  ", \"components\": " ++ jsonIntList rig.components ++
  ", \"hardware_id\": \"" ++ hw ++
  "\", \"hash_power\": " ++ toString rig.hash_power ++
  ", \"owner\": \"" ++ rig.owner ++
  "\", \"rig_id\": " ++ toString rig.rig_id ++
  ", \"timestamp\": " ++ toString timestamp ++
  ", \"watt_consumption\": " ++ toString rig.watt_consumption ++ "\x7d"

/-- The SHA-256 digest bytes returned by prepare_public_inputs. -/
def prepare_public_inputs (hw : String) (rig : MiningRig)
    (block_height timestamp : Nat) : List Nat :=
  sha256 (strBytes (prepare_public_inputs_serialized hw rig block_height timestamp))

/-! Rig Registry. self.mining_rigs is a Python dict keyed by the string
f"\x7bchain\x7d:\x7brig.owner\x7d:\x7brig.rig_id\x7d"; insertion order is
preserved and an existing key is overwritten in place, so the dict is
modelled as an association list. -/

/-- Observable states of the registry mapping. -/
abbrev Registry := List (String × MiningRig)

/-- The dict key built in load_rigs_from_chain. -/
def rig_key (chain : String) (rig : MiningRig) : String :=
  chain ++ ":" ++ rig.owner ++ ":" ++ toString rig.rig_id

/-- One Python dict assignment self.mining_rigs[key] = rig: overwrite in
place when the key exists, else append. -/
def dictSet (m : Registry) (k : String) (v : MiningRig) : Registry :=
  if m.any (fun p => p.1 == k) then
    m.map (fun p => if p.1 = k then (k, v) else p)
  else m ++ [(k, v)]

/-- Final registry produced by load_rigs_from_chain: each fetched rig is
assigned into self.mining_rigs one at a time inside the for loop. -/
def load_rigs_from_chain (chain : String) (rigs : List MiningRig) (m : Registry) : Registry :=
  rigs.foldl (fun acc r => dictSet acc (rig_key chain r) r) m

/-- Every registry state observable while load_rigs_from_chain runs: the
state before the loop, then the state after each single-rig assignment.
A concurrent reader holds a reference to self.mining_rigs and sees
whichever of these states is current. -/
def load_rigs_states (chain : String) : List MiningRig → Registry → List Registry
  | [], m => [m]
  | r :: rest, m => m :: load_rigs_states chain rest (dictSet m (rig_key chain r) r)

/-- The two mock rigs created by load_rigs_from_chain (source lines
149-168). -/
def mock_rig_1 : MiningRig :=
  { rig_id := 1
    owner := "0x742d35Cc6634C0532925a3b8D0C9e3e0C8b4c8e8"
    components := [1, 3, 4]
    hash_power := 2000000
    watt_consumption := 445
    nuchain_address := "nu1miner000000000000000000000000000000000"
    is_active := true }

/-- Second mock rig of load_rigs_from_chain. -/
def mock_rig_2 : MiningRig :=
  { rig_id := 2
    owner := "0x123d35Cc6634C0532925a3b8D0C9e3e0C8b4c8e8"
    components := [1, 3, 5, 5]
    hash_power := 4500000
    watt_consumption := 1025
    nuchain_address := "nu1miner111111111111111111111111111111111"
    is_active := true }

/-! Event Monitor, monitor_nuchain_blocks. Inside one subscribed session
the loop reads each websocket message; a message whose JSON carries
result.data yields a parsed block height, any other message is skipped.
The loop keeps no watermark or last-height state. An inbound message is
modelled as some height when it is a block event, none otherwise. -/

/-- Heights handed to trigger_proof_generation by one subscribed session,
in arrival order (source lines 203-210). -/
def monitor_loop : List (Option Nat) → List Nat
  | [] => []
  | none :: rest => monitor_loop rest
  | some h :: rest => h :: monitor_loop rest

/-- Seconds slept before the retry that follows the n-th consecutive
connection failure: the except branch runs asyncio.sleep(5) and then
calls monitor_nuchain_blocks again, with no failure counter (source
lines 212-215). -/
def monitor_reconnect_delay (_n : Nat) : Nat := 5

/-- Delay schedule observed over k consecutive connection failures. -/
def monitor_failure_delays (k : Nat) : List Nat :=
  (List.range k).map monitor_reconnect_delay

/-! Prover Client. generate_cysic_proof_for_rig posts a proof request to
the Cysic endpoint; the HTTP outcome for one call is modelled as a
value of ProverResponse. -/

/-- Outcome of the requests.post call to the prover endpoint: an HTTP 200
response carrying proof and verification-key bytes, a non-200 response,
or a raised exception (network error or timeout). -/
inductive ProverResponse where
  | ok (proof_data vk_data : List Nat)
  | httpError (status : Nat) (body : String)
  | exn (msg : String)
deriving DecidableEq, Repr

/-- True when the response is an HTTP 200 with proof data. -/
def ProverResponse.isOk : ProverResponse → Bool
  | .ok _ _ => true
  | _ => false

/-- Body of generate_cysic_proof_for_rig (source lines 232-283): build
the public-input digest, call the prover; on HTTP 200 wrap the response
in a CysicProof; an error status logs and falls through, and the except
branch catches any raised exception — both yield none, and neither
propagates an exception to the caller. -/
def generate_cysic_proof_for_rig (hw : String) (rig : MiningRig)
    (block_height timestamp gen_time_ms : Nat) (resp : ProverResponse) : Option CysicProof :=
  match resp with
  | .ok proof_data vk_data =>
    some { proof_bytes := proof_data
           public_inputs := prepare_public_inputs hw rig block_height timestamp
           verification_key := vk_data
           hardware_id := hw
           generation_time_ms := gen_time_ms }
  | .httpError _ _ => none
  | .exn _ => none

/-- Environment a dispatch runs in: the prover response for each (rig,
height) call, plus the wall-clock timestamp and measured generation
time. -/
structure ProverEnv where
  respond : MiningRig → Nat → ProverResponse
  timestamp : Nat
  gen_time : Nat

/-! Proof Dispatcher, trigger_proof_generation (source lines 217-230).
It filters the registry values by is_active, spawns one
generate_cysic_proof_for_rig task per active rig, and gathers them with
return_exceptions=True. The gathered results are the value of the
gather expression; the function then returns without passing any result
to submit_to_nuchain or to any queue — the name submit_to_nuchain does
not occur in trigger_proof_generation, generate_cysic_proofs or
anywhere else in the module outside its own definition. -/

/-- Active rigs drawn from the registry values. -/
def active_rigs (m : Registry) : List MiningRig :=
  (m.map Prod.snd).filter (fun r => r.is_active)

/-- Externally visible effects of one trigger_proof_generation call. -/
structure DispatchEffects where
  prover_calls : List (Nat × Nat)
  proofs : List CysicProof
  submissions : List (Nat × Nat)
deriving DecidableEq, Repr

/-- One dispatch: prover_calls lists the (rig_id, height) of every
generate_cysic_proof_for_rig task spawned; proofs lists the successful
results the gather collects; submissions lists the submit_to_nuchain
invocations the dispatch makes, of which the source makes none. -/
def trigger_proof_generation (hw : String) (env : ProverEnv) (m : Registry)
    (block_height : Nat) : DispatchEffects :=
  let active := active_rigs m
  { prover_calls := active.map (fun r => (r.rig_id, block_height))
    proofs := active.filterMap (fun r =>
      generate_cysic_proof_for_rig hw r block_height env.timestamp env.gen_time
        (env.respond r block_height))
    submissions := [] }

/-- Prover calls issued across a sequence of triggers.
trigger_proof_generation reads only self.mining_rigs and keeps no
record of previously dispatched (rig, height) pairs, so consecutive
triggers concatenate their calls. -/
def dispatch_sequence (hw : String) (env : ProverEnv) (m : Registry)
    (heights : List Nat) : List (Nat × Nat) :=
  heights.flatMap (fun h => (trigger_proof_generation hw env m h).prover_calls)

/-! Submission Pipeline. submit_to_nuchain (source lines 359-391) posts
one broadcast_tx_commit request and inspects the response;
submit_proofs_to_pool (source lines 317-327) is the pipeline task of
start_mining and its loop body only sleeps. -/

/-- Outcome of the single requests.post to the nuChain RPC: a raised
exception, or an HTTP response with a status and an optional result
code plus transaction hash. -/
inductive LedgerResponse where
  | netError (msg : String)
  | http (status : Nat) (code : Option Nat) (hash : String)
deriving DecidableEq, Repr

/-- What submit_to_nuchain reports: the success print plus reward
increment, the failure print for a non-zero result code, the error
print from the except branch, or nothing at all — a non-200 status
falls through the if with no else branch. -/
inductive SubmitLog where
  | submittedHash (hash : String)
  | submissionFailed
  | submissionError (msg : String)
  | nothingLogged
deriving DecidableEq, Repr

/-- Externally visible effects of one submit_to_nuchain call. -/
structure SubmitOutcome where
  attempts : Nat
  reward_increment : Nat
  log : SubmitLog
deriving DecidableEq, Repr

/-- Body of submit_to_nuchain: exactly one requests.post is executed —
there is no loop, retry counter, backoff or record keeping; on status
200 with result code 0 the hash is printed and total_rewards is
incremented, on status 200 with any other code an error is printed,
on any other status nothing happens, and a raised exception is caught
and printed. -/
def submit_to_nuchain (resp : LedgerResponse) : SubmitOutcome :=
  match resp with
  | .netError msg => { attempts := 1, reward_increment := 0, log := .submissionError msg }
  | .http status code hash =>
    if status = 200 then
      if code = some 0 then
        { attempts := 1, reward_increment := 1, log := .submittedHash hash }
      else
        { attempts := 1, reward_increment := 0, log := .submissionFailed }
    else
      { attempts := 1, reward_increment := 0, log := .nothingLogged }

/-- Submissions performed by one iteration of the submit_proofs_to_pool
loop: its body is a comment and asyncio.sleep(1), so none. -/
def submit_proofs_to_pool_step : List (Nat × Nat) := []

/-! Stats Aggregator, monitor_mining_stats (source lines 329-357). Each
iteration derives a stats dict from the uptime clock, the
proofs_generated and total_rewards counters, the hardware id and the
registry. Fractional quantities are modelled as rationals. -/

/-- Value stored under one stats key. -/
inductive StatValue where
  | natv (n : Nat)
  | intv (i : Int)
  | ratv (q : Rat)
  | strv (s : String)
deriving DecidableEq, Repr

/-- Python int() truncation toward zero on a rational. -/
def pyInt (q : Rat) : Int := Int.tdiv q.num q.den

/-- Python round(x, 2): round to two decimals, ties to the even
hundredth. -/
def pyRound2 (q : Rat) : Rat :=
  let x := q * 100
  let f : Int := ⌊x⌋
  let frac := x - (f : Rat)
  let r : Int :=
    if frac < 1 / 2 then f
    else if 1 / 2 < frac then f + 1
    else if f % 2 = 0 then f else f + 1
  (r : Rat) / 100

/-- Source lines 333-334: proofs_per_second is the quotient guarded by
uptime > 0, else 0. -/
def proofs_per_second (proofs_generated : Nat) (uptime : Rat) : Rat :=
  if 0 < uptime then (proofs_generated : Rat) / uptime else 0

/-- The stats dict built by one monitor_mining_stats iteration, as the
ordered list of its key/value pairs (source lines 338-348). -/
def monitor_mining_stats_snapshot (hw : String) (m : Registry)
    (proofs_generated total_rewards : Nat) (uptime : Rat) :
    List (String × StatValue) :=
  [("uptime_seconds", .intv (pyInt uptime)),
   ("proofs_generated", .natv proofs_generated),
   ("proofs_per_second", .ratv (pyRound2 (proofs_per_second proofs_generated uptime))),
   ("total_hash_power", .natv (((m.map Prod.snd).map MiningRig.hash_power).sum)),
   ("total_watt_consumption", .natv (((m.map Prod.snd).map MiningRig.watt_consumption).sum)),
   ("hardware_id", .strv hw),
   ("active_rigs", .natv (active_rigs m).length),
   ("total_rewards", .natv total_rewards)]

/-! Concrete fixtures used by counterexamples and witnesses. -/

/-- The hardware id of the shipped configuration. -/
def test_hw : String := "nvidia-a100"

/-- Registry produced by the code's own mock refresh from an empty
dict. -/
def test_registry : Registry :=
  load_rigs_from_chain "altcoinchain" [mock_rig_1, mock_rig_2] []

/-- An environment whose prover succeeds for every rig. -/
def test_env : ProverEnv :=
  { respond := fun _ _ => .ok [170] [187]
    timestamp := 1700000000
    gen_time := 12 }

/-- An environment whose prover raises for rig 1 and succeeds for every
other rig. -/
def test_env_fail : ProverEnv :=
  { respond := fun r _ => if r.rig_id = 1 then .exn "timeout" else .ok [170] [187]
    timestamp := 1700000000
    gen_time := 12 }

/-- mock_rig_1 with a different destination address and cleared active
flag; prepare_public_inputs reads neither field. -/
def mock_rig_1_variant : MiningRig :=
  { mock_rig_1 with nuchain_address := "nu1other", is_active := false }

/-! Helper lemmas shared by the claim theorems. -/

/-- Counting a (rig_id, height) pair among the calls spawned for one
trigger. -/
lemma count_pair_map (l : List MiningRig) (rid h h0 : Nat) :
    (l.map (fun r => (r.rig_id, h0))).count (rid, h)
      = if h0 = h then l.countP (fun r => r.rig_id == rid) else 0 := by
  induction l with
  | nil => simp
  | cons r rest ih =>
    rw [List.map_cons, List.count_cons, ih, List.countP_cons]
    by_cases hh : h0 = h <;> by_cases hr : r.rig_id = rid <;>
      simp [hh, hr, Prod.ext_iff]

/-! C1. The claim reads: over any non-decreasing (possibly repeating)
height sequence, trigger_proof_generation issues at most one prover
call per (rig, height) pair, so a replayed height does not re-dispatch
a rig. The code keeps no dispatched-set: a replayed height calls the
prover again for every active rig. -/

/-- C1 counterexample: with the code's own mock registry, the height
sequence 100, 100 (non-decreasing) makes trigger_proof_generation spawn
two prover calls for the pair (rig 1, height 100), refuting the
at-most-one bound. -/
theorem dispatch_dedup_claim_false :
    ¬ (∀ (m : Registry) (heights : List Nat), heights.Chain' (· ≤ ·) →
        ∀ rh : Nat × Nat, (dispatch_sequence test_hw test_env m heights).count rh ≤ 1) := by
  intro hcl
  have h := hcl test_registry [100, 100]
    (List.chain'_cons.mpr ⟨le_refl 100, List.chain'_singleton 100⟩) (1, 100)
  have h2 : (dispatch_sequence test_hw test_env test_registry [100, 100]).count (1, 100) = 2 := by
    decide
  omega

/-- C1 as amended: trigger_proof_generation deduplicates nothing — over
any height sequence the number of prover calls for (rid, h) equals the
number of occurrences of h in the sequence times the number of active
rigs with that rig_id, so every replay of a height re-dispatches every
active rig. -/
theorem dispatch_sequence_call_count (hw : String) (env : ProverEnv) (m : Registry)
    (heights : List Nat) (rid h : Nat) :
    (dispatch_sequence hw env m heights).count (rid, h)
      = heights.count h * (active_rigs m).countP (fun r => r.rig_id == rid) := by
  induction heights with
  | nil => simp [dispatch_sequence]
  | cons h0 rest ih =>
    simp only [dispatch_sequence, List.flatMap_cons, List.count_append] at ih ⊢
    rw [show (trigger_proof_generation hw env m h0).prover_calls
          = (active_rigs m).map (fun r => (r.rig_id, h0)) from rfl,
        count_pair_map, ih, List.count_cons]
    by_cases hh : h0 = h
    · simp only [hh, if_pos rfl, beq_self_eq_true, if_true]
      ring
    · simp [hh]

/-! C2. The claim reads: monitor_nuchain_blocks keeps a last-emitted
watermark, drops any event whose height is not above it, and so emits
strictly increasing heights. The loop keeps no such state: every block
event is forwarded, duplicates included. -/

/-- C2 counterexample: two inbound events carrying the same height 100
both reach trigger_proof_generation — the second is not dropped and the
emitted sequence 100, 100 is not strictly increasing. -/
theorem monitor_watermark_claim_false :
    monitor_loop [some 100, some 100] = [100, 100] ∧
    ¬ (monitor_loop [some 100, some 100]).Chain' (· < ·) := by
  refine ⟨rfl, ?_⟩
  intro h
  rw [show monitor_loop [some 100, some 100] = [100, 100] from rfl] at h
  exact absurd (List.chain'_cons.mp h).1 (by omega)

/-- C2 as amended: monitor_nuchain_blocks keeps no watermark — it
forwards the height of every block event in arrival order, so each
height is emitted exactly as often as it arrives, stale and duplicate
heights included. -/
theorem monitor_loop_no_watermark (events : List (Option Nat)) (h : Nat) :
    monitor_loop events = events.filterMap id ∧
    (monitor_loop events).count h = events.count (some h) := by
  constructor
  · induction events with
    | nil => rfl
    | cons e rest ih => cases e <;> simp [monitor_loop, ih]
  · induction events with
    | nil => rfl
    | cons e rest ih =>
      cases e <;> simp [monitor_loop, List.count_cons, ih]

/-! C3. The claim reads: submit_to_nuchain retries transient failures
with bounded exponential backoff up to an attempt cap, then marks the
(rig, height) record abandoned and surfaces the error, and on success
confirms the record with the transaction hash. The code performs a
single attempt with no retry, no backoff and no record at all, and a
non-200 reply is not even logged. -/

/-- C3 counterexample: a network error — the paradigm transient failure
— produces exactly one attempt, refuting any retry (which needs at
least a second attempt) and hence any retry cap or abandoned
transition. -/
theorem submission_retry_claim_false :
    ¬ (∀ msg : String, 2 ≤ (submit_to_nuchain (.netError msg)).attempts) := by
  intro hcl
  have h := hcl "connection refused"
  have h2 : (submit_to_nuchain (.netError "connection refused")).attempts = 1 := rfl
  omega

/-- C3 as amended: submit_to_nuchain fires exactly once per call; the
reward counter increments exactly on an HTTP 200 reply whose result
code is 0, and a non-200 reply is silently dropped — no retry, no
backoff, no pending or abandoned record. -/
theorem submit_to_nuchain_fire_once (resp : LedgerResponse) :
    (submit_to_nuchain resp).attempts = 1 ∧
    ((submit_to_nuchain resp).reward_increment = 1 ↔
      ∃ hsh, resp = .http 200 (some 0) hsh) ∧
    (∀ status code hsh, resp = .http status code hsh → status ≠ 200 →
      (submit_to_nuchain resp).log = .nothingLogged) := by
  refine ⟨?_, ?_, ?_⟩
  · cases resp with
    | netError msg => rfl
    | http status code hash =>
      rw [submit_to_nuchain]
      split <;> [skip; rfl]
      split <;> rfl
  · cases resp with
    | netError msg => simp [submit_to_nuchain]
    | http status code hash =>
      rw [submit_to_nuchain]
      by_cases hs : status = 200
      · by_cases hc : code = some 0
        · simp [hs, hc]
        · simp [hs, hc]
      · simp [hs]
  · rintro status code hsh rfl hne
    simp [submit_to_nuchain, hne]

/-- C3 witness: a 404 reply observes the amended behavior — one attempt
and nothing logged. -/
theorem submit_to_nuchain_fire_once_witness :
    (submit_to_nuchain (.http 404 none "")).attempts = 1 ∧
    (submit_to_nuchain (.http 404 none "")).log = .nothingLogged :=
  ⟨(submit_to_nuchain_fire_once (.http 404 none "")).1,
   (submit_to_nuchain_fire_once (.http 404 none "")).2.2 404 none "" rfl (by decide)⟩

/-! C6. The claim reads: after the n-th consecutive subscription
failure the monitor waits min(base * 2^n, cap), growing toward the cap
and resetting after a successful reconnect, driven by a loop. The code
sleeps a fixed 5 seconds whatever the failure count and retries by
calling monitor_nuchain_blocks from within its own except branch. -/

/-- C6 counterexample: no schedule that actually grows toward a cap
(base below cap, so the first doubling is still uncapped) matches the
code's delays — such a schedule would wait base = 5 seconds after the
first failure and 2 * base = 10 after the second, but the code waits 5
again. -/
theorem backoff_claim_false :
    ¬ (∃ base cap : Nat, 0 < base ∧ 2 * base ≤ cap ∧
        ∀ n, monitor_reconnect_delay n = min (base * 2 ^ n) cap) := by
  rintro ⟨base, cap, hb, hc, hf⟩
  have h0 := hf 0
  have h1 := hf 1
  rw [monitor_reconnect_delay, pow_zero, mul_one, Nat.min_eq_left (by omega)] at h0
  rw [monitor_reconnect_delay, pow_one, Nat.min_eq_left (by omega)] at h1
  omega

/-- C6 as amended: the reconnect delay is the constant 5 seconds — the
schedule over any run of consecutive failures is a constant list
(trivially non-decreasing), with no exponential growth, no cap and no
failure counter to reset; the retry itself is a recursive
self-invocation, not a loop. -/
theorem monitor_delay_constant (k n : Nat) :
    monitor_failure_delays k = List.replicate k 5 ∧ monitor_reconnect_delay n = 5 := by
  refine ⟨?_, rfl⟩
  rw [monitor_failure_delays,
    show monitor_reconnect_delay = Function.const Nat 5 from rfl,
    List.map_const, List.length_range]

/-! C4. The claim reads: a refresh builds the new rig set aside and
publishes it with one atomic swap, so a concurrent reader sees the old
complete set or the new complete set and never a mixture. The code
assigns each fetched rig into the published self.mining_rigs dict one
entry at a time inside the loop. -/

/-- C4 counterexample: refreshing the empty registry with the code's
two mock rigs exposes an intermediate observable state — the dict after
the first assignment — holding exactly rig 1, which is neither the old
(empty) set nor the new complete two-rig set. -/
theorem registry_refresh_atomic_claim_false :
    (load_rigs_states "altcoinchain" [mock_rig_1, mock_rig_2] []).get? 1
        = some [(rig_key "altcoinchain" mock_rig_1, mock_rig_1)] ∧
    [(rig_key "altcoinchain" mock_rig_1, mock_rig_1)] ≠ ([] : Registry) ∧
    [(rig_key "altcoinchain" mock_rig_1, mock_rig_1)]
        ≠ load_rigs_from_chain "altcoinchain" [mock_rig_1, mock_rig_2] [] := by
  refine ⟨rfl, by decide, by decide⟩

/-- C4 as amended: refresh edits the published registry in place entry
by entry — a run of load_rigs_from_chain over k fetched rigs walks
through k + 1 observable registry states, starting at the old set and
ending at the new one, and a concurrent reader can observe any of
them. -/
theorem load_rigs_states_stepwise (chain : String) (rigs : List MiningRig) (m : Registry) :
    (load_rigs_states chain rigs m).head? = some m ∧
    (load_rigs_states chain rigs m).getLast? = some (load_rigs_from_chain chain rigs m) ∧
    (load_rigs_states chain rigs m).length = rigs.length + 1 := by
  induction rigs generalizing m with
  | nil => exact ⟨rfl, rfl, rfl⟩
  | cons r rest ih =>
    refine ⟨rfl, ?_, ?_⟩
    · have h := (ih (dictSet m (rig_key chain r) r)).2.1
      rw [load_rigs_states]
      cases hs : load_rigs_states chain rest (dictSet m (rig_key chain r) r) with
      | nil => rw [hs] at h; exact absurd h (by simp)
      | cons s ss =>
        rw [hs] at h
        rw [List.getLast?_cons_cons, h]
        rfl
    · have h := (ih (dictSet m (rig_key chain r) r)).2.2
      rw [load_rigs_states, List.length_cons, h, List.length_cons]

/-! C5. The claim reads: every successful proof of a fan-out is
forwarded to submit_to_nuchain as it completes, and no success is
discarded without a submission attempt. The dispatch gathers the
results and drops them: nothing in the module ever calls
submit_to_nuchain, and the submit_proofs_to_pool task only sleeps. -/

/-- C5 counterexample: with a prover that succeeds for both mock rigs
at height 100, the dispatch collects two successful proofs yet issues
zero submit_to_nuchain calls, and a pool-task iteration submits nothing
either — both successes are discarded without a submission attempt. -/
theorem submission_forwarding_claim_false :
    (trigger_proof_generation test_hw test_env test_registry 100).proofs.length = 2 ∧
    (trigger_proof_generation test_hw test_env test_registry 100).submissions = [] ∧
    submit_proofs_to_pool_step = [] :=
  ⟨rfl, rfl, rfl⟩

/-- C5 as amended: the fan-out collects exactly one successful proof
per active rig whose prover call returns HTTP 200, but forwards none of
them — every dispatch issues zero submissions, so every successful
proof is discarded. -/
theorem dispatch_discards_successes (hw : String) (env : ProverEnv) (m : Registry) (h : Nat) :
    (trigger_proof_generation hw env m h).submissions = [] ∧
    (trigger_proof_generation hw env m h).proofs.length
      = (active_rigs m).countP (fun r => (env.respond r h).isOk) := by
  refine ⟨rfl, ?_⟩
  rw [show (trigger_proof_generation hw env m h).proofs
        = (active_rigs m).filterMap (fun r =>
            generate_cysic_proof_for_rig hw r h env.timestamp env.gen_time
              (env.respond r h)) from rfl,
      List.length_filterMap_eq_countP]
  induction active_rigs m with
  | nil => rfl
  | cons r rest ih =>
    rw [List.countP_cons, List.countP_cons, ih]
    cases env.respond r h <;> rfl

/-! C7. The claim reads: within one fan-out a failing rig neither
cancels nor aborts the sibling prover calls or the dispatch loop, all
outcomes are collected, and a rig that failed at height H is dispatched
again at the next height. generate_cysic_proof_for_rig catches its own
errors and returns None, and asyncio.gather(..., return_exceptions=True)
collects every task's outcome, so the code honors this. -/

/-- C7 confirmed: the set of prover calls a dispatch spawns does not
depend on any rig's outcome (so no failure suppresses a sibling call or
the dispatch itself), every active rig is called both at the current
height and again at the next, and every successful result is among the
collected proofs. -/
theorem fanout_failure_isolation (hw : String) (env1 env2 : ProverEnv) (m : Registry) (h : Nat) :
    (trigger_proof_generation hw env1 m h).prover_calls
        = (trigger_proof_generation hw env2 m h).prover_calls ∧
    (∀ r ∈ active_rigs m,
      (r.rig_id, h) ∈ (trigger_proof_generation hw env1 m h).prover_calls ∧
      (r.rig_id, h + 1) ∈ (trigger_proof_generation hw env1 m (h + 1)).prover_calls) ∧
    (∀ r ∈ active_rigs m, ∀ c : CysicProof,
      generate_cysic_proof_for_rig hw r h env1.timestamp env1.gen_time (env1.respond r h)
          = some c →
      c ∈ (trigger_proof_generation hw env1 m h).proofs) := by
  refine ⟨rfl, fun r hr => ⟨List.mem_map_of_mem _ hr, List.mem_map_of_mem _ hr⟩, ?_⟩
  intro r hr c hc
  exact List.mem_filterMap.mpr ⟨r, hr, hc⟩

/-- C7 witness: with the prover raising for rig 1 and succeeding for
rig 2 at height 100, the spawned calls equal those of an all-success
run, rig 1 is called again at height 101, and rig 2's proof is among
the collected results. -/
theorem fanout_failure_isolation_witness :
    (trigger_proof_generation test_hw test_env_fail test_registry 100).prover_calls
        = (trigger_proof_generation test_hw test_env test_registry 100).prover_calls ∧
    (1, 101) ∈ (trigger_proof_generation test_hw test_env_fail test_registry 101).prover_calls ∧
    ({ proof_bytes := [170]
       public_inputs := prepare_public_inputs test_hw mock_rig_2 100 1700000000
       verification_key := [187]
       hardware_id := test_hw
       generation_time_ms := 12 } : CysicProof)
        ∈ (trigger_proof_generation test_hw test_env_fail test_registry 100).proofs := by
  refine ⟨?_, ?_, ?_⟩
  · have h := (fanout_failure_isolation test_hw test_env_fail test_env test_registry 100).1
    have h2 : (trigger_proof_generation test_hw test_env_fail test_registry 100).prover_calls
        = (trigger_proof_generation test_hw test_env test_registry 100).prover_calls := h
    exact h2
  · exact ((fanout_failure_isolation test_hw test_env_fail test_env test_registry 100).2.1
      mock_rig_1 (by decide)).2
  · exact (fanout_failure_isolation test_hw test_env_fail test_env test_registry 100).2.2
      mock_rig_2 (by decide) _ rfl

/-! C8. The claim reads: prepare_public_inputs is deterministic — two
calls agreeing on the rig's identity and declared capacity, the trigger
height and the pinned timestamp return identical digest bytes. The
digest is SHA-256 of a serialization of exactly the rig's rig_id,
owner, components, hash_power and watt_consumption together with the
block height, the timestamp and the client's hardware id, so it is a
pure function of those inputs. -/

/-- C8 confirmed: two prepare_public_inputs calls on the same client
that agree on the rig's identity fields, component list and declared
capacity, the trigger height and the pinned timestamp return identical
digest bytes — the rig's destination address and active flag are not
read at all. -/
theorem prepare_public_inputs_deterministic (hw : String) (r1 r2 : MiningRig)
    (bh ts : Nat) (hid : r1.rig_id = r2.rig_id) (how : r1.owner = r2.owner)
    (hcomp : r1.components = r2.components) (hhp : r1.hash_power = r2.hash_power)
    (hwc : r1.watt_consumption = r2.watt_consumption) :
    prepare_public_inputs hw r1 bh ts = prepare_public_inputs hw r2 bh ts := by
  rw [prepare_public_inputs, prepare_public_inputs, prepare_public_inputs_serialized,
    prepare_public_inputs_serialized, hid, how, hcomp, hhp, hwc]

/-- C8 witness: mock rig 1 and its variant with a different destination
address and cleared active flag hash to the same digest at height 100
with a pinned timestamp. -/
theorem prepare_public_inputs_deterministic_witness :
    prepare_public_inputs test_hw mock_rig_1 100 1700000000
      = prepare_public_inputs test_hw mock_rig_1_variant 100 1700000000 :=
  prepare_public_inputs_deterministic test_hw mock_rig_1 mock_rig_1_variant
    100 1700000000 rfl rfl rfl rfl rfl

/-! C9. The claim reads: the stats snapshot holds exactly the seven
fields uptime, proofs_generated, proofs_per_second, total_hash_power,
total_watt_consumption, active_rig_count and total_confirmed_submissions.
The dict monitor_mining_stats builds has eight fields: the extra
hardware_id, uptime_seconds and active_rigs in place of the claimed
names, and total_rewards where the claim reads
total_confirmed_submissions. -/

/-- C9 counterexample: the snapshot built from the mock registry has
eight keys, among them hardware_id — absent from the claimed field
list — while the claimed uptime, active_rig_count and
total_confirmed_submissions keys do not occur. -/
theorem stats_fields_claim_false :
    ((monitor_mining_stats_snapshot test_hw test_registry 7 0 10).map Prod.fst).length = 8 ∧
    "hardware_id" ∈ (monitor_mining_stats_snapshot test_hw test_registry 7 0 10).map Prod.fst ∧
    "uptime" ∉ (monitor_mining_stats_snapshot test_hw test_registry 7 0 10).map Prod.fst ∧
    "active_rig_count" ∉
      (monitor_mining_stats_snapshot test_hw test_registry 7 0 10).map Prod.fst ∧
    "total_confirmed_submissions" ∉
      (monitor_mining_stats_snapshot test_hw test_registry 7 0 10).map Prod.fst := by
  refine ⟨rfl, by decide, by decide, by decide, by decide⟩

/-- C9 as amended: the snapshot holds exactly the keys uptime_seconds,
proofs_generated, proofs_per_second, total_hash_power,
total_watt_consumption, hardware_id, active_rigs and total_rewards;
active_rigs is the number of registered rigs whose active flag is set,
and the two totals are the sums of the declared attributes over all
registered rigs, active or not. -/
theorem stats_snapshot_contents (hw : String) (m : Registry) (pg tr : Nat) (u : Rat) :
    (monitor_mining_stats_snapshot hw m pg tr u).map Prod.fst
        = ["uptime_seconds", "proofs_generated", "proofs_per_second", "total_hash_power",
           "total_watt_consumption", "hardware_id", "active_rigs", "total_rewards"] ∧
    (monitor_mining_stats_snapshot hw m pg tr u).lookup "active_rigs"
        = some (.natv ((m.map Prod.snd).countP (fun r => r.is_active))) ∧
    (monitor_mining_stats_snapshot hw m pg tr u).lookup "total_hash_power"
        = some (.natv (((m.map Prod.snd).map MiningRig.hash_power).sum)) ∧
    (monitor_mining_stats_snapshot hw m pg tr u).lookup "total_watt_consumption"
        = some (.natv (((m.map Prod.snd).map MiningRig.watt_consumption).sum)) := by
  refine ⟨rfl, ?_, rfl, rfl⟩
  have h : (monitor_mining_stats_snapshot hw m pg tr u).lookup "active_rigs"
      = some (.natv (active_rigs m).length) := rfl
  rw [h, active_rigs, ← List.countP_eq_length_filter]

/-! C10. The claim reads: proofs_per_second is 0 whenever uptime is not
positive and the quotient proofs_generated / uptime otherwise, so the
stats computation never divides by zero. Source line 334 guards the
quotient with exactly that conditional. -/

/-- C10 confirmed: proofs_per_second returns 0 whenever uptime is not
positive and the quotient otherwise. -/
theorem proofs_per_second_guarded (pg : Nat) (u : Rat) :
    (u ≤ 0 → proofs_per_second pg u = 0) ∧
    (0 < u → proofs_per_second pg u = (pg : Rat) / u) := by
  constructor
  · intro h
    rw [proofs_per_second, if_neg (not_lt.mpr h)]
  · intro h
    rw [proofs_per_second, if_pos h]

/-- C10 witness: at zero uptime the reported rate is 0, and at uptime 2
with 7 proofs it is 7 / 2. -/
theorem proofs_per_second_guarded_witness :
    proofs_per_second 7 0 = 0 ∧ proofs_per_second 7 2 = (7 : Rat) / 2 :=
  ⟨(proofs_per_second_guarded 7 0).1 (le_refl 0),
   (proofs_per_second_guarded 7 2).2 (by norm_num)⟩

end CysicMiner
